import Mathlib

/-!
Verification of the RISC-V instruction-level simulator (`src/simulate.h`,
which contains both the `Stat` header and the simulator body, and
`src/disassemble.c`).

Machine integers are modelled as `Nat` (for C `uint32_t` values, kept below
`2 ^ 32` by explicit `% 2 ^ 32` at every point where C arithmetic wraps) and
`Int` (for C `int32_t` values obtained by the cast `(int32_t)x`).
-/

/-- The C cast `(int32_t)v` of a `uint32_t` value: two's-complement
reinterpretation of `v % 2^32`. -/
def toInt32 (v : Nat) : Int :=
  if v % 2 ^ 32 < 2 ^ 31 then ((v % 2 ^ 32 : Nat) : Int)
  else ((v % 2 ^ 32 : Nat) : Int) - 2 ^ 32

/-- The C cast `(uint32_t)x` of an `int32_t` (or wider signed) value:
reduction modulo `2^32` into `0 .. 2^32 - 1`. -/
def u32ofInt (x : Int) : Nat := (x % 2 ^ 32).toNat

/-- The C cast `(int8_t)v` of a byte value. -/
def toInt8 (v : Nat) : Int :=
  if v % 2 ^ 8 < 2 ^ 7 then ((v % 2 ^ 8 : Nat) : Int)
  else ((v % 2 ^ 8 : Nat) : Int) - 2 ^ 8

/-- The C cast `(int16_t)v` of a halfword value. -/
def toInt16 (v : Nat) : Int :=
  if v % 2 ^ 16 < 2 ^ 15 then ((v % 2 ^ 16 : Nat) : Int)
  else ((v % 2 ^ 16 : Nat) : Int) - 2 ^ 16

namespace Simulate

/-- `sign_extend` from `src/simulate.h`: extend an n-bit value to a 32-bit
signed integer; `m = 1u << (bits - 1)`, result is `(int32_t)v`, minus
`(int32_t)(2 * m)` when bit `bits - 1` of `v` is set. -/
def sign_extend (v : Nat) (bits : Nat) : Int :=
  let m : Nat := (1 <<< (bits - 1)) % 2 ^ 32
  let result : Int := toInt32 v
  if v &&& m ≠ 0 then result - toInt32 (2 * m % 2 ^ 32) else result

/-- `imm_I` from `src/simulate.h` (I-type immediate). -/
def imm_I (instruct : Nat) : Int :=
  sign_extend ((instruct % 2 ^ 32) >>> 20) 12

/-- `imm_S` from `src/simulate.h` (S-type immediate). -/
def imm_S (instruct : Nat) : Int :=
  sign_extend ((((instruct % 2 ^ 32) >>> 25) <<< 5) ||| (((instruct % 2 ^ 32) >>> 7) &&& 0x1f)) 12

/-- `imm_B` from `src/simulate.h` (B-type immediate). -/
def imm_B (instruct : Nat) : Int :=
  let w := instruct % 2 ^ 32
  let imm := (((w >>> 31) &&& 0x1) <<< 12) ||| (((w >>> 25) &&& 0x3f) <<< 5)
    ||| (((w >>> 8) &&& 0xf) <<< 1) ||| (((w >>> 7) &&& 0x1) <<< 11)
  sign_extend imm 13

/-- `imm_U` from `src/simulate.h` (U-type immediate). -/
def imm_U (instruct : Nat) : Int :=
  toInt32 ((instruct % 2 ^ 32) &&& 0xfffff000)

/-- `imm_J` from `src/simulate.h` (J-type immediate). -/
def imm_J (instruct : Nat) : Int :=
  let w := instruct % 2 ^ 32
  let imm := (((w >>> 31) &&& 0x1) <<< 20) ||| (((w >>> 21) &&& 0x3ff) <<< 1)
    ||| (((w >>> 20) &&& 0x1) <<< 11) ||| (((w >>> 12) &&& 0xff) <<< 12)
  sign_extend imm 21

/-- Opcode field extraction used by the executor: `instruction & 0x7f`. -/
def opcode (instruction : Nat) : Nat := (instruction % 2 ^ 32) &&& 0x7f

/-- Destination-register field: `(instruction >> 7) & 0x1f`. -/
def rd (instruction : Nat) : Nat := ((instruction % 2 ^ 32) >>> 7) &&& 0x1f

/-- `funct3` field: `(instruction >> 12) & 0x7`. -/
def funct3 (instruction : Nat) : Nat := ((instruction % 2 ^ 32) >>> 12) &&& 0x7

/-- First source-register field: `(instruction >> 15) & 0x1f`. -/
def rs1 (instruction : Nat) : Nat := ((instruction % 2 ^ 32) >>> 15) &&& 0x1f

/-- Second source-register field: `(instruction >> 20) & 0x1f`. -/
def rs2 (instruction : Nat) : Nat := ((instruction % 2 ^ 32) >>> 20) &&& 0x1f

/-- `funct7` field: `(instruction >> 25) & 0x7f`. -/
def funct7 (instruction : Nat) : Nat := ((instruction % 2 ^ 32) >>> 25) &&& 0x7f

end Simulate

namespace Disassemble

/-- `sign_extend` from `src/disassemble.c` (textually duplicated decoder). -/
def sign_extend (v : Nat) (bits : Nat) : Int :=
  let m : Nat := (1 <<< (bits - 1)) % 2 ^ 32
  let result : Int := toInt32 v
  if v &&& m ≠ 0 then result - toInt32 (2 * m % 2 ^ 32) else result

/-- `imm_I` from `src/disassemble.c`. -/
def imm_I (instruct : Nat) : Int :=
  sign_extend ((instruct % 2 ^ 32) >>> 20) 12

/-- `imm_S` from `src/disassemble.c`. -/
def imm_S (instruct : Nat) : Int :=
  sign_extend ((((instruct % 2 ^ 32) >>> 25) <<< 5) ||| (((instruct % 2 ^ 32) >>> 7) &&& 0x1f)) 12

/-- `imm_B` from `src/disassemble.c`. -/
def imm_B (instruct : Nat) : Int :=
  let w := instruct % 2 ^ 32
  let imm := (((w >>> 31) &&& 0x1) <<< 12) ||| (((w >>> 25) &&& 0x3f) <<< 5)
    ||| (((w >>> 8) &&& 0xf) <<< 1) ||| (((w >>> 7) &&& 0x1) <<< 11)
  sign_extend imm 13

/-- `imm_U` from `src/disassemble.c`. -/
def imm_U (instruct : Nat) : Int :=
  toInt32 ((instruct % 2 ^ 32) &&& 0xfffff000)

/-- `imm_J` from `src/disassemble.c`. -/
def imm_J (instruct : Nat) : Int :=
  let w := instruct % 2 ^ 32
  let imm := (((w >>> 31) &&& 0x1) <<< 20) ||| (((w >>> 21) &&& 0x3ff) <<< 1)
    ||| (((w >>> 20) &&& 0x1) <<< 11) ||| (((w >>> 12) &&& 0xff) <<< 12)
  sign_extend imm 21

/-- Opcode field extraction in `disassemble`: `instruction & 0x7f`. -/
def opcode (instruction : Nat) : Nat := (instruction % 2 ^ 32) &&& 0x7f

/-- Destination-register field in `disassemble`. -/
def rd (instruction : Nat) : Nat := ((instruction % 2 ^ 32) >>> 7) &&& 0x1f

/-- `funct3` field in `disassemble`. -/
def funct3 (instruction : Nat) : Nat := ((instruction % 2 ^ 32) >>> 12) &&& 0x7

/-- First source-register field in `disassemble`. -/
def rs1 (instruction : Nat) : Nat := ((instruction % 2 ^ 32) >>> 15) &&& 0x1f

/-- Second source-register field in `disassemble`. -/
def rs2 (instruction : Nat) : Nat := ((instruction % 2 ^ 32) >>> 20) &&& 0x1f

/-- `funct7` field in `disassemble`. -/
def funct7 (instruction : Nat) : Nat := ((instruction % 2 ^ 32) >>> 25) &&& 0x7f

end Disassemble

namespace Simulate

/-- `div_s` from `src/simulate.h`: signed division with the RISC-V edge
cases (divide by zero yields `-1`; `INT32_MIN / -1` yields `INT32_MIN`);
C `/` on `int32_t` truncates toward zero, i.e. `Int.tdiv`. -/
def div_s (a b : Int) : Int :=
  if b = 0 then -1
  else if a = -(2 ^ 31) ∧ b = -1 then a
  else Int.tdiv a b

/-- `div_u` from `src/simulate.h`: unsigned division, divide by zero yields
`UINT32_MAX`. -/
def div_u (a b : Nat) : Nat :=
  if b = 0 then 2 ^ 32 - 1 else a / b

/-- `rem_s` from `src/simulate.h`: signed remainder with the RISC-V edge
cases; C `%` on `int32_t` is `Int.tmod`. -/
def rem_s (a b : Int) : Int :=
  if b = 0 then a
  else if a = -(2 ^ 31) ∧ b = -1 then 0
  else Int.tmod a b

/-- `rem_u` from `src/simulate.h`: unsigned remainder, remainder by zero
yields the dividend. -/
def rem_u (a b : Nat) : Nat :=
  if b = 0 then a else a % b

end Simulate

/-- Byte-addressable memory. Modelled from the spec: the memory collaborator
(`memory.h`, not part of the core sources) exposes byte/halfword/word reads
and writes addressed by 32-bit unsigned addresses (§6); multi-byte accesses
are little-endian and the core treats a returned word as a canonical 32-bit
unsigned value. -/
def Mem : Type := Nat → Nat

/-- Modelled from the spec: byte read of the memory collaborator. -/
def memory_rd_b (m : Mem) (a : Nat) : Nat := m (a % 2 ^ 32) % 2 ^ 8

/-- Modelled from the spec: halfword read of the memory collaborator. -/
def memory_rd_h (m : Mem) (a : Nat) : Nat :=
  memory_rd_b m a + 2 ^ 8 * memory_rd_b m (a + 1)

/-- Modelled from the spec: word read of the memory collaborator. -/
def memory_rd_w (m : Mem) (a : Nat) : Nat :=
  memory_rd_b m a + 2 ^ 8 * memory_rd_b m (a + 1)
    + 2 ^ 16 * memory_rd_b m (a + 2) + 2 ^ 24 * memory_rd_b m (a + 3)

/-- Modelled from the spec: byte write of the memory collaborator. -/
def memory_wr_b (m : Mem) (a v : Nat) : Mem :=
  fun i => if i = a % 2 ^ 32 then v % 2 ^ 8 else m i

/-- Modelled from the spec: halfword write of the memory collaborator. -/
def memory_wr_h (m : Mem) (a v : Nat) : Mem :=
  memory_wr_b (memory_wr_b m a v) (a + 1) (v >>> 8)

/-- Modelled from the spec: word write of the memory collaborator. -/
def memory_wr_w (m : Mem) (a v : Nat) : Mem :=
  memory_wr_b (memory_wr_b (memory_wr_b (memory_wr_b m a v) (a + 1) (v >>> 8))
    (a + 2) (v >>> 16)) (a + 3) (v >>> 24)

/-- `struct Stat` from `src/simulate.h`: retired-instruction count and the
per-predictor counters, including the four-bucket arrays for the two
table-based predictors. -/
structure Stat where
  insns : Int
  nt_predictions : Int
  nt_mispredictions : Int
  btfnt_predictions : Int
  btfnt_mispredictions : Int
  bimodal_predictions : Fin 4 → Int
  bimodal_mispredictions : Fin 4 → Int
  gshare_predictions : Fin 4 → Int
  gshare_mispredictions : Fin 4 → Int

/-- The mutable state of the `simulate` loop: the register file `R[32]`
(values kept `< 2 ^ 32`), the program counter, the memory, the statistics
being accumulated, `instr_count`, the `stop` flag, and the standard
input/output streams used by the trap services. -/
structure SimState where
  R : Nat → Nat
  PC : Nat
  mem : Mem
  stats : Stat
  input : List Nat
  output : List Nat
  instr_count : Int
  stop : Bool

/-- A store into the `uint32_t` register array `R[rd] = v` (the stored
value wraps modulo `2 ^ 32`, as storing into a `uint32_t` does). -/
def writeReg (R : Nat → Nat) (rd v : Nat) : Nat → Nat :=
  fun i => if i = rd then v % 2 ^ 32 else R i

namespace Simulate

/-- The value written to `R[rd]` by an R-type (opcode `0x33`) instruction in
`src/simulate.h`, or `none` when the instruction's case performs no register
write (`add/sub` with an unknown `funct7`, and `srl/sra` with a `funct7`
that is neither `0x00` nor `0x20`). -/
def rtype_result (funct3 funct7 a b : Nat) : Option Nat :=
  if funct7 = 0x01 then
    match funct3 with
    | 0 => some (u32ofInt (toInt32 a * toInt32 b))
    | 1 => some (((toInt32 a * toInt32 b) % 2 ^ 64).toNat >>> 32)
    | 2 => some (((toInt32 a * (b : Int)) % 2 ^ 64).toNat >>> 32)
    | 3 => some ((a * b) >>> 32)
    | 4 => some (u32ofInt (div_s (toInt32 a) (toInt32 b)))
    | 5 => some (div_u a b)
    | 6 => some (u32ofInt (rem_s (toInt32 a) (toInt32 b)))
    | 7 => some (rem_u a b)
    | _ => none
  else
    match funct3 with
    | 0 =>
      if funct7 = 0x00 then some (u32ofInt (toInt32 a + toInt32 b))
      else if funct7 = 0x20 then some (u32ofInt (toInt32 a - toInt32 b))
      else none
    | 1 => some ((a <<< (b &&& 0x1f)) % 2 ^ 32)
    | 2 => some (if toInt32 a < toInt32 b then 1 else 0)
    | 3 => some (if a < b then 1 else 0)
    | 4 => some (a ^^^ b)
    | 5 =>
      if funct7 = 0x00 then some (a >>> (b &&& 0x1f))
      else if funct7 = 0x20 then some (u32ofInt (toInt32 a >>> (b &&& 0x1f)))
      else none
    | 6 => some (a ||| b)
    | 7 => some (a &&& b)
    | _ => none

/-- The value written to `R[rd]` by an I-type arithmetic (opcode `0x13`)
instruction in `src/simulate.h`; every `funct3` case writes. -/
def itype_result (instruction funct3 a : Nat) : Nat :=
  let imm := imm_I instruction
  match funct3 with
  | 0 => u32ofInt (toInt32 a + imm)
  | 1 => (a <<< (((instruction % 2 ^ 32) >>> 20) &&& 0x1f)) % 2 ^ 32
  | 2 => if toInt32 a < imm then 1 else 0
  | 3 => if a < u32ofInt imm then 1 else 0
  | 4 => a ^^^ u32ofInt imm
  | 5 =>
    let shift_amount := ((instruction % 2 ^ 32) >>> 20) &&& 0x1f
    if ((instruction % 2 ^ 32) >>> 25) &&& 0x7f = 0x00 then a >>> shift_amount
    else u32ofInt (toInt32 a >>> shift_amount)
  | 6 => a ||| u32ofInt imm
  | 7 => a &&& u32ofInt imm
  | _ => a

/-- The value written to `R[rd]` by a load (opcode `0x03`) in
`src/simulate.h`, or `none` for the silent `default:` cases
(`funct3 ∈ {3, 6, 7}`). -/
def load_result (funct3 : Nat) (mem : Mem) (addr : Nat) : Option Nat :=
  match funct3 with
  | 0 => some (u32ofInt (toInt8 (memory_rd_b mem addr)))
  | 1 => some (u32ofInt (toInt16 (memory_rd_h mem addr)))
  | 2 => some (memory_rd_w mem addr)
  | 4 => some (memory_rd_b mem addr)
  | 5 => some (memory_rd_h mem addr)
  | _ => none

/-- The memory produced by a store (opcode `0x23`) in `src/simulate.h`, or
`none` for the silent `default:` cases (`funct3 ≥ 3`). -/
def store_mem (funct3 : Nat) (mem : Mem) (addr b : Nat) : Option Mem :=
  match funct3 with
  | 0 => some (memory_wr_b mem addr (b &&& 0xFF))
  | 1 => some (memory_wr_h mem addr (b &&& 0xFFFF))
  | 2 => some (memory_wr_w mem addr b)
  | _ => none

/-- The branch condition `take` computed by the conditional-branch case
(opcode `0x63`) of `src/simulate.h`; the `default:` case leaves
`take = 0`. -/
def branch_take (funct3 a b : Nat) : Bool :=
  match funct3 with
  | 0 => toInt32 a = toInt32 b
  | 1 => toInt32 a ≠ toInt32 b
  | 4 => decide (toInt32 a < toInt32 b)
  | 5 => decide (toInt32 b ≤ toInt32 a)
  | 6 => decide (a < b)
  | 7 => decide (b ≤ a)
  | _ => false

/-- One execution of the `switch (opcode)` dispatch of `src/simulate.h` on
a fetched `instruction`: returns the state after the instruction's side
effects (registers, memory, statistics, I/O, `stop`) together with
`next_pc`. -/
def execute (s : SimState) (instruction : Nat) : SimState × Nat :=
  let current_pc := s.PC
  let op := opcode instruction
  let rdi := rd instruction
  let f3 := funct3 instruction
  let r1 := rs1 instruction
  let r2 := rs2 instruction
  let f7 := funct7 instruction
  let next_pc := (current_pc + 4) % 2 ^ 32
  if op = 0x33 then
    match rtype_result f3 f7 (s.R r1) (s.R r2) with
    | some v => ({ s with R := writeReg s.R rdi v }, next_pc)
    | none => (s, next_pc)
  else if op = 0x13 then
    ({ s with R := writeReg s.R rdi (itype_result instruction f3 (s.R r1)) }, next_pc)
  else if op = 0x03 then
    let addr := u32ofInt (toInt32 (s.R r1) + imm_I instruction)
    match load_result f3 s.mem addr with
    | some v => ({ s with R := writeReg s.R rdi v }, next_pc)
    | none => (s, next_pc)
  else if op = 0x23 then
    let addr := u32ofInt (toInt32 (s.R r1) + imm_S instruction)
    match store_mem f3 s.mem addr (s.R r2) with
    | some m => ({ s with mem := m }, next_pc)
    | none => (s, next_pc)
  else if op = 0x63 then
    let target := u32ofInt (toInt32 current_pc + imm_B instruction)
    let take := branch_take f3 (s.R r1) (s.R r2)
    let btfnt_pred_taken : Bool := decide (target < current_pc)
    let stats1 :=
      { s.stats with
        nt_predictions := s.stats.nt_predictions + 1
        btfnt_predictions := s.stats.btfnt_predictions + 1
        nt_mispredictions :=
          if take then s.stats.nt_mispredictions + 1 else s.stats.nt_mispredictions
        btfnt_mispredictions :=
          if btfnt_pred_taken ≠ take then s.stats.btfnt_mispredictions + 1
          else s.stats.btfnt_mispredictions }
    ({ s with stats := stats1 }, if take then target else next_pc)
  else if op = 0x6f then
    let target := u32ofInt (toInt32 current_pc + imm_J instruction)
    ({ s with R := writeReg s.R rdi ((current_pc + 4) % 2 ^ 32) }, target)
  else if op = 0x67 then
    let t := u32ofInt (toInt32 (s.R r1) + imm_I instruction) &&& 0xfffffffe
    ({ s with R := writeReg s.R rdi ((current_pc + 4) % 2 ^ 32) }, t)
  else if op = 0x37 then
    ({ s with R := writeReg s.R rdi (u32ofInt (imm_U instruction)) }, next_pc)
  else if op = 0x17 then
    ({ s with R := writeReg s.R rdi (u32ofInt (toInt32 current_pc + imm_U instruction)) }, next_pc)
  else if op = 0x73 then
    if instruction % 2 ^ 32 = 0x00000073 then
      let a7 := s.R 17
      if a7 = 1 then
        match s.input with
        | [] => ({ s with R := writeReg s.R 10 (u32ofInt (-1)) }, next_pc)
        | c :: rest => ({ s with R := writeReg s.R 10 (c % 2 ^ 8), input := rest }, next_pc)
      else if a7 = 2 then
        ({ s with output := s.output ++ [s.R 10 &&& 0xff] }, next_pc)
      else if a7 = 3 ∨ a7 = 93 then
        ({ s with stop := true }, next_pc)
      else
        ({ s with stop := true }, next_pc)
    else
      (s, next_pc)
  else
    ({ s with stop := true }, next_pc)

/-- One iteration of the `while (!stop)` loop of `src/simulate.h`: fetch at
`PC`, execute, force `R[0] = 0`, advance `PC` to `next_pc`, and record the
incremented `instr_count` in `stats.insns`. -/
def step (s : SimState) : SimState :=
  let instruction := memory_rd_w s.mem s.PC
  let e := execute s instruction
  let c := s.instr_count + 1
  { e.1 with
    R := fun i => if i = 0 then 0 else e.1.R i
    PC := e.2
    instr_count := c
    stats := { e.1.stats with insns := c } }

/-- The state at entry of the `while` loop of `simulate`: registers zeroed,
`PC = (uint32_t)start_addr`, `insns`/NT/BTFNT counters zeroed.  The C code
leaves the `bimodal_*` and `gshare_*` arrays of its local `struct Stat`
uninitialized, so they are taken from the arbitrary stack garbage `g`. -/
def initState (mem : Mem) (start_addr : Nat) (g : Stat) (input : List Nat) : SimState :=
  { R := fun _ => 0
    PC := start_addr % 2 ^ 32
    mem := mem
    stats :=
      { g with
        insns := 0
        nt_predictions := 0
        nt_mispredictions := 0
        btfnt_predictions := 0
        btfnt_mispredictions := 0 }
    input := input
    output := []
    instr_count := 0
    stop := false }

/-- The `while (!stop)` loop, fuel-indexed: performs at most `fuel`
iterations, stopping as soon as `stop` is set. -/
def run : Nat → SimState → SimState
  | 0, s => s
  | fuel + 1, s => if s.stop then s else run fuel (step s)

/-- `simulate` from `src/simulate.h` (fuel-indexed): runs the loop from the
initial state and returns the accumulated `Stat`. -/
def simulate (fuel : Nat) (mem : Mem) (start_addr : Nat) (g : Stat) (input : List Nat) : Stat :=
  (run fuel (initState mem start_addr g input)).stats

end Simulate

/-- Disjoint bitwise-or is addition: if `a` has no bits below `2 ^ k` and
`b < 2 ^ k`, then `a ||| b = a + b`. -/
lemma or_eq_add_align (k a b : Nat) (ha : a % 2 ^ k = 0) (hb : b < 2 ^ k) :
    a ||| b = a + b := by
  obtain ⟨c, rfl⟩ := Nat.dvd_of_mod_eq_zero ha
  rw [← Nat.mul_add_lt_is_or hb c]

/-- Left commutativity of bitwise or on `Nat`. -/
lemma lor_left_comm (a b c : Nat) : a ||| (b ||| c) = b ||| (a ||| c) := by
  rw [← Nat.or_assoc, Nat.or_comm a b, Nat.or_assoc]

/-- Conjunction with a shifted mask commutes with shifting. -/
lemma and_shl (w m k : Nat) : w &&& (m <<< k) = ((w >>> k) &&& m) <<< k := by
  apply Nat.eq_of_testBit_eq
  intro i
  simp only [Nat.testBit_and, Nat.testBit_shiftLeft, Nat.testBit_shiftRight]
  by_cases h : k ≤ i
  · have h2 : k + (i - k) = i := by omega
    simp [h, h2]
  · simp [h]

/-- Conjunction with a single bit, arithmetically. -/
lemma and_two_pow_arith (x k : Nat) : x &&& 2 ^ k = x / 2 ^ k % 2 * 2 ^ k := by
  rw [Nat.and_two_pow, Nat.testBit_to_div_mod]
  rcases Nat.mod_two_eq_zero_or_one (x / 2 ^ k) with h | h <;> simp [h]

/-- Arithmetic form of `sign_extend` for an in-range field value. -/
lemma sign_extend_arith (v bits : Nat) (h1 : 1 ≤ bits) (h2 : bits ≤ 30)
    (hv : v < 2 ^ bits) :
    Simulate.sign_extend v bits
      = (v : Int) - (if v / 2 ^ (bits - 1) % 2 = 1 then 2 ^ bits else 0) := by
  have hpow : (2 : Nat) ^ bits < 2 ^ 31 :=
    Nat.pow_lt_pow_right (by norm_num) (by omega)
  have hm : (1 <<< (bits - 1)) % 2 ^ 32 = 2 ^ (bits - 1) := by
    rw [Nat.shiftLeft_eq, one_mul, Nat.mod_eq_of_lt]
    exact Nat.pow_lt_pow_right (by norm_num) (by omega)
  have h2m : 2 * 2 ^ (bits - 1) = 2 ^ bits := by
    have hb : bits - 1 + 1 = bits := by omega
    calc 2 * 2 ^ (bits - 1) = 2 ^ (bits - 1) * 2 := by ring
    _ = 2 ^ (bits - 1 + 1) := by rw [pow_succ]
    _ = 2 ^ bits := by rw [hb]
  have hv31 : v < 2 ^ 31 := lt_trans hv hpow
  have hv32 : v % 2 ^ 32 = v := Nat.mod_eq_of_lt (by omega)
  have htov : toInt32 v = (v : Int) := by
    unfold toInt32
    rw [hv32, if_pos hv31]
  have hp32 : (2 : Nat) ^ bits % 2 ^ 32 = 2 ^ bits := Nat.mod_eq_of_lt (by omega)
  have htop : toInt32 (2 ^ bits) = ((2 : Nat) ^ bits : Int) := by
    unfold toInt32
    rw [hp32, if_pos hpow]
    push_cast
    ring
  have hcond : (v &&& 2 ^ (bits - 1) ≠ 0) ↔ (v / 2 ^ (bits - 1) % 2 = 1) := by
    have hp : 0 < 2 ^ (bits - 1) := Nat.pos_pow_of_pos _ (by norm_num)
    rw [and_two_pow_arith]
    rcases Nat.mod_two_eq_zero_or_one (v / 2 ^ (bits - 1)) with h | h
    · simp [h]
    · simp [h, hp.ne']
  simp only [Simulate.sign_extend, hm, h2m, hp32, htov, htop]
  by_cases hc : v / 2 ^ (bits - 1) % 2 = 1
  · rw [if_pos (hcond.mpr hc), if_pos hc]
    push_cast
    ring
  · rw [if_neg (fun h => hc (hcond.mp h)), if_neg hc]
    simp

/-- Mask by `0x1` is reduction mod `2`. -/
lemma and_mask1 (x : Nat) : x &&& 1 = x % 2 := Nat.and_one_is_mod x

/-- Mask by `0x7` is reduction mod `2 ^ 3`. -/
lemma and_mask7 (x : Nat) : x &&& 7 = x % 2 ^ 3 := Nat.and_pow_two_sub_one_eq_mod x 3

/-- Mask by `0xf` is reduction mod `2 ^ 4`. -/
lemma and_mask15 (x : Nat) : x &&& 15 = x % 2 ^ 4 := Nat.and_pow_two_sub_one_eq_mod x 4

/-- Mask by `0x1f` is reduction mod `2 ^ 5`. -/
lemma and_mask31 (x : Nat) : x &&& 31 = x % 2 ^ 5 := Nat.and_pow_two_sub_one_eq_mod x 5

/-- Mask by `0x3f` is reduction mod `2 ^ 6`. -/
lemma and_mask63 (x : Nat) : x &&& 63 = x % 2 ^ 6 := Nat.and_pow_two_sub_one_eq_mod x 6

/-- Mask by `0x7f` is reduction mod `2 ^ 7`. -/
lemma and_mask127 (x : Nat) : x &&& 127 = x % 2 ^ 7 := Nat.and_pow_two_sub_one_eq_mod x 7

/-- Mask by `0xff` is reduction mod `2 ^ 8`. -/
lemma and_mask255 (x : Nat) : x &&& 255 = x % 2 ^ 8 := Nat.and_pow_two_sub_one_eq_mod x 8

/-- Mask by `0x3ff` is reduction mod `2 ^ 10`. -/
lemma and_mask1023 (x : Nat) : x &&& 1023 = x % 2 ^ 10 := Nat.and_pow_two_sub_one_eq_mod x 10

/-- Arithmetic form of the I-type immediate extractor. -/
lemma imm_I_arith (w : Nat) :
    Simulate.imm_I w = Simulate.sign_extend (w % 2 ^ 32 / 2 ^ 20) 12 := by
  simp only [Simulate.imm_I, Nat.shiftRight_eq_div_pow]

/-- Arithmetic form of the S-type immediate extractor. -/
lemma imm_S_arith (w : Nat) :
    Simulate.imm_S w
      = Simulate.sign_extend (w % 2 ^ 32 / 2 ^ 25 * 2 ^ 5 + w % 2 ^ 32 / 2 ^ 7 % 2 ^ 5) 12 := by
  simp only [Simulate.imm_S, Nat.shiftRight_eq_div_pow, and_mask31, Nat.shiftLeft_eq]
  rw [or_eq_add_align 5 (w % 2 ^ 32 / 2 ^ 25 * 2 ^ 5) (w % 2 ^ 32 / 2 ^ 7 % 2 ^ 5)
    (by omega) (by omega)]

/-- Arithmetic form of the B-type immediate extractor. -/
lemma imm_B_arith (w : Nat) :
    Simulate.imm_B w
      = Simulate.sign_extend (w % 2 ^ 32 / 2 ^ 31 % 2 * 2 ^ 12
          + (w % 2 ^ 32 / 2 ^ 7 % 2 * 2 ^ 11
            + (w % 2 ^ 32 / 2 ^ 25 % 2 ^ 6 * 2 ^ 5 + w % 2 ^ 32 / 2 ^ 8 % 2 ^ 4 * 2))) 13 := by
  simp only [Simulate.imm_B, Nat.shiftRight_eq_div_pow, and_mask1, and_mask63, and_mask15,
    Nat.shiftLeft_eq]
  rw [Nat.or_assoc, Nat.or_assoc,
    Nat.or_comm (w % 2 ^ 32 / 2 ^ 8 % 2 ^ 4 * 2) (w % 2 ^ 32 / 2 ^ 7 % 2 * 2 ^ 11),
    lor_left_comm (w % 2 ^ 32 / 2 ^ 25 % 2 ^ 6 * 2 ^ 5) (w % 2 ^ 32 / 2 ^ 7 % 2 * 2 ^ 11)
      (w % 2 ^ 32 / 2 ^ 8 % 2 ^ 4 * 2),
    or_eq_add_align 5 (w % 2 ^ 32 / 2 ^ 25 % 2 ^ 6 * 2 ^ 5) (w % 2 ^ 32 / 2 ^ 8 % 2 ^ 4 * 2)
      (by omega) (by omega),
    or_eq_add_align 11 (w % 2 ^ 32 / 2 ^ 7 % 2 * 2 ^ 11)
      (w % 2 ^ 32 / 2 ^ 25 % 2 ^ 6 * 2 ^ 5 + w % 2 ^ 32 / 2 ^ 8 % 2 ^ 4 * 2)
      (by omega) (by omega),
    or_eq_add_align 12 (w % 2 ^ 32 / 2 ^ 31 % 2 * 2 ^ 12)
      (w % 2 ^ 32 / 2 ^ 7 % 2 * 2 ^ 11
        + (w % 2 ^ 32 / 2 ^ 25 % 2 ^ 6 * 2 ^ 5 + w % 2 ^ 32 / 2 ^ 8 % 2 ^ 4 * 2))
      (by omega) (by omega)]

/-- Arithmetic form of the U-type immediate extractor. -/
lemma imm_U_arith (w : Nat) :
    Simulate.imm_U w = toInt32 (w % 2 ^ 32 / 2 ^ 12 % 2 ^ 20 * 2 ^ 12) := by
  have h : (0xfffff000 : Nat) = 1048575 <<< 12 := by norm_num [Nat.shiftLeft_eq]
  simp only [Simulate.imm_U]
  rw [h, and_shl, Nat.shiftRight_eq_div_pow, Nat.shiftLeft_eq,
    (Nat.and_pow_two_sub_one_eq_mod (w % 2 ^ 32 / 2 ^ 12) 20 :
      w % 2 ^ 32 / 2 ^ 12 &&& 1048575 = w % 2 ^ 32 / 2 ^ 12 % 2 ^ 20)]

/-- Arithmetic form of the J-type immediate extractor. -/
lemma imm_J_arith (w : Nat) :
    Simulate.imm_J w
      = Simulate.sign_extend (w % 2 ^ 32 / 2 ^ 31 % 2 * 2 ^ 20
          + (w % 2 ^ 32 / 2 ^ 12 % 2 ^ 8 * 2 ^ 12
            + (w % 2 ^ 32 / 2 ^ 20 % 2 * 2 ^ 11 + w % 2 ^ 32 / 2 ^ 21 % 2 ^ 10 * 2))) 21 := by
  simp only [Simulate.imm_J, Nat.shiftRight_eq_div_pow, and_mask1, and_mask1023, and_mask255,
    Nat.shiftLeft_eq]
  rw [Nat.or_assoc, Nat.or_assoc,
    lor_left_comm (w % 2 ^ 32 / 2 ^ 21 % 2 ^ 10 * 2) (w % 2 ^ 32 / 2 ^ 20 % 2 * 2 ^ 11)
      (w % 2 ^ 32 / 2 ^ 12 % 2 ^ 8 * 2 ^ 12),
    Nat.or_comm (w % 2 ^ 32 / 2 ^ 21 % 2 ^ 10 * 2) (w % 2 ^ 32 / 2 ^ 12 % 2 ^ 8 * 2 ^ 12),
    lor_left_comm (w % 2 ^ 32 / 2 ^ 20 % 2 * 2 ^ 11) (w % 2 ^ 32 / 2 ^ 12 % 2 ^ 8 * 2 ^ 12)
      (w % 2 ^ 32 / 2 ^ 21 % 2 ^ 10 * 2),
    or_eq_add_align 11 (w % 2 ^ 32 / 2 ^ 20 % 2 * 2 ^ 11) (w % 2 ^ 32 / 2 ^ 21 % 2 ^ 10 * 2)
      (by omega) (by omega),
    or_eq_add_align 12 (w % 2 ^ 32 / 2 ^ 12 % 2 ^ 8 * 2 ^ 12)
      (w % 2 ^ 32 / 2 ^ 20 % 2 * 2 ^ 11 + w % 2 ^ 32 / 2 ^ 21 % 2 ^ 10 * 2)
      (by omega) (by omega),
    or_eq_add_align 20 (w % 2 ^ 32 / 2 ^ 31 % 2 * 2 ^ 20)
      (w % 2 ^ 32 / 2 ^ 12 % 2 ^ 8 * 2 ^ 12
        + (w % 2 ^ 32 / 2 ^ 20 % 2 * 2 ^ 11 + w % 2 ^ 32 / 2 ^ 21 % 2 ^ 10 * 2))
      (by omega) (by omega)]

/-- C7: for every 32-bit instruction word, the field and immediate decoding
used by the disassembler (opcode/rd/funct3/rs1/rs2/funct7 extraction and
`imm_I`, `imm_S`, `imm_B`, `imm_U`, `imm_J` in `disassemble.c`) computes
exactly the same values as the copy of that logic in `simulate.h`: the two
duplicated decoders are extensionally equal functions. -/
theorem decoders_extensionally_equal :
    (∀ w, Disassemble.opcode w = Simulate.opcode w)
    ∧ (∀ w, Disassemble.rd w = Simulate.rd w)
    ∧ (∀ w, Disassemble.funct3 w = Simulate.funct3 w)
    ∧ (∀ w, Disassemble.rs1 w = Simulate.rs1 w)
    ∧ (∀ w, Disassemble.rs2 w = Simulate.rs2 w)
    ∧ (∀ w, Disassemble.funct7 w = Simulate.funct7 w)
    ∧ (∀ v bits, Disassemble.sign_extend v bits = Simulate.sign_extend v bits)
    ∧ (∀ w, Disassemble.imm_I w = Simulate.imm_I w)
    ∧ (∀ w, Disassemble.imm_S w = Simulate.imm_S w)
    ∧ (∀ w, Disassemble.imm_B w = Simulate.imm_B w)
    ∧ (∀ w, Disassemble.imm_U w = Simulate.imm_U w)
    ∧ (∀ w, Disassemble.imm_J w = Simulate.imm_J w) :=
  ⟨fun _ => rfl, fun _ => rfl, fun _ => rfl, fun _ => rfl, fun _ => rfl, fun _ => rfl,
   fun _ _ => rfl, fun _ => rfl, fun _ => rfl, fun _ => rfl, fun _ => rfl, fun _ => rfl⟩

/-- Modelled from the spec: the I-format encoder placing a 12-bit immediate
in bits 31..20 (§4.1); test scaffolding for the round-trip property. -/
def encode_I (v : Int) : Nat := (v % 2 ^ 12).toNat * 2 ^ 20

/-- Modelled from the spec: the S-format encoder placing immediate bits
11..5 in word bits 31..25 and bits 4..0 in word bits 11..7 (§4.1). -/
def encode_S (v : Int) : Nat :=
  (v % 2 ^ 12).toNat / 2 ^ 5 * 2 ^ 25 + (v % 2 ^ 12).toNat % 2 ^ 5 * 2 ^ 7

/-- Modelled from the spec: the B-format encoder placing immediate bit 12 in
word bit 31, bits 10..5 in word bits 30..25, bits 4..1 in word bits 11..8,
and bit 11 in word bit 7 (§4.1). -/
def encode_B (v : Int) : Nat :=
  (v % 2 ^ 13).toNat / 2 ^ 12 * 2 ^ 31 + (v % 2 ^ 13).toNat / 2 ^ 5 % 2 ^ 6 * 2 ^ 25
    + (v % 2 ^ 13).toNat / 2 % 2 ^ 4 * 2 ^ 8 + (v % 2 ^ 13).toNat / 2 ^ 11 % 2 * 2 ^ 7

/-- Modelled from the spec: the U-format encoder, whose immediate already
occupies bits 31..12 with the low 12 bits zero (§4.1). -/
def encode_U (v : Int) : Nat := (v % 2 ^ 32).toNat

/-- Modelled from the spec: the J-format encoder placing immediate bit 20 in
word bit 31, bits 10..1 in word bits 30..21, bit 11 in word bit 20, and
bits 19..12 in word bits 19..12 (§4.1). -/
def encode_J (v : Int) : Nat :=
  (v % 2 ^ 21).toNat / 2 ^ 20 * 2 ^ 31 + (v % 2 ^ 21).toNat / 2 % 2 ^ 10 * 2 ^ 21
    + (v % 2 ^ 21).toNat / 2 ^ 11 % 2 * 2 ^ 20 + (v % 2 ^ 21).toNat / 2 ^ 12 % 2 ^ 8 * 2 ^ 12

/-- Division/remainder facts for a B-format word assembled from in-range
fields. -/
lemma bfield_divs (a b c d : Nat) (ha : a ≤ 1) (hb : b < 2 ^ 6) (hc : c < 2 ^ 4) (hd : d ≤ 1) :
    (a * 2 ^ 31 + b * 2 ^ 25 + c * 2 ^ 8 + d * 2 ^ 7) % 2 ^ 32
        = a * 2 ^ 31 + b * 2 ^ 25 + c * 2 ^ 8 + d * 2 ^ 7
    ∧ (a * 2 ^ 31 + b * 2 ^ 25 + c * 2 ^ 8 + d * 2 ^ 7) / 2 ^ 31 % 2 = a
    ∧ (a * 2 ^ 31 + b * 2 ^ 25 + c * 2 ^ 8 + d * 2 ^ 7) / 2 ^ 7 % 2 = d
    ∧ (a * 2 ^ 31 + b * 2 ^ 25 + c * 2 ^ 8 + d * 2 ^ 7) / 2 ^ 25 % 2 ^ 6 = b
    ∧ (a * 2 ^ 31 + b * 2 ^ 25 + c * 2 ^ 8 + d * 2 ^ 7) / 2 ^ 8 % 2 ^ 4 = c :=
  ⟨by omega, by omega, by omega, by omega, by omega⟩

/-- Division/remainder facts for a J-format word assembled from in-range
fields. -/
lemma jfield_divs (a b c d : Nat) (ha : a ≤ 1) (hb : b < 2 ^ 10) (hc : c ≤ 1) (hd : d < 2 ^ 8) :
    (a * 2 ^ 31 + b * 2 ^ 21 + c * 2 ^ 20 + d * 2 ^ 12) % 2 ^ 32
        = a * 2 ^ 31 + b * 2 ^ 21 + c * 2 ^ 20 + d * 2 ^ 12
    ∧ (a * 2 ^ 31 + b * 2 ^ 21 + c * 2 ^ 20 + d * 2 ^ 12) / 2 ^ 31 % 2 = a
    ∧ (a * 2 ^ 31 + b * 2 ^ 21 + c * 2 ^ 20 + d * 2 ^ 12) / 2 ^ 12 % 2 ^ 8 = d
    ∧ (a * 2 ^ 31 + b * 2 ^ 21 + c * 2 ^ 20 + d * 2 ^ 12) / 2 ^ 20 % 2 = c
    ∧ (a * 2 ^ 31 + b * 2 ^ 21 + c * 2 ^ 20 + d * 2 ^ 12) / 2 ^ 21 % 2 ^ 10 = b :=
  ⟨by omega, by omega, by omega, by omega, by omega⟩
/-- C8: sign-extension round-trip — for every format (I, S, B, U, J) and
every signed immediate representable in that format (12-bit for I/S, 13-bit
with bit 0 zero for B, upper-20-bit with low 12 bits zero for U, 21-bit
with bit 0 zero for J), decoding an instruction word whose immediate
bit-fields encode `v` recovers exactly `v` as a signed integer. -/
theorem imm_roundtrip :
    (∀ v : Int, -(2 ^ 11) ≤ v → v < 2 ^ 11 → Simulate.imm_I (encode_I v) = v)
    ∧ (∀ v : Int, -(2 ^ 11) ≤ v → v < 2 ^ 11 → Simulate.imm_S (encode_S v) = v)
    ∧ (∀ v : Int, -(2 ^ 12) ≤ v → v < 2 ^ 12 → v % 2 = 0 → Simulate.imm_B (encode_B v) = v)
    ∧ (∀ v : Int, -(2 ^ 31) ≤ v → v < 2 ^ 31 → v % 2 ^ 12 = 0 → Simulate.imm_U (encode_U v) = v)
    ∧ (∀ v : Int, -(2 ^ 20) ≤ v → v < 2 ^ 20 → v % 2 = 0 → Simulate.imm_J (encode_J v) = v) := by
  refine ⟨?_, ?_, ?_, ?_, ?_⟩
  · intro v h1 h2
    rw [imm_I_arith]
    have hu : encode_I v % 2 ^ 32 / 2 ^ 20 = (v % 2 ^ 12).toNat := by
      unfold encode_I
      omega
    rw [hu, sign_extend_arith _ 12 (by norm_num) (by norm_num) (by omega)]
    split <;> omega
  · intro v h1 h2
    rw [imm_S_arith]
    have hu : encode_S v % 2 ^ 32 / 2 ^ 25 * 2 ^ 5 + encode_S v % 2 ^ 32 / 2 ^ 7 % 2 ^ 5
        = (v % 2 ^ 12).toNat := by
      unfold encode_S
      omega
    rw [hu, sign_extend_arith _ 12 (by norm_num) (by norm_num) (by omega)]
    split <;> omega
  · intro v h1 h2 h3
    rw [imm_B_arith]
    unfold encode_B
    set u := (v % 2 ^ 13).toNat with hudef
    have hu13 : u < 2 ^ 13 := by omega
    have hu2 : u % 2 = 0 := by omega
    generalize hA : u / 2 ^ 12 = a
    generalize hB : u / 2 ^ 5 % 2 ^ 6 = b
    generalize hC : u / 2 % 2 ^ 4 = c
    generalize hD : u / 2 ^ 11 % 2 = d
    have ha : a ≤ 1 := by omega
    have hb : b < 2 ^ 6 := by omega
    have hc : c < 2 ^ 4 := by omega
    have hd : d ≤ 1 := by omega
    obtain ⟨hw, e1, e2, e3, e4⟩ := bfield_divs a b c d ha hb hc hd
    rw [hw, e1, e2, e3, e4]
    clear hw e1 e2 e3 e4
    have harg : a * 2 ^ 12 + (d * 2 ^ 11 + (b * 2 ^ 5 + c * 2)) = u := by omega
    rw [harg, sign_extend_arith u 13 (by norm_num) (by norm_num) (by omega)]
    split <;> omega
  · intro v h1 h2 h3
    rw [imm_U_arith]
    have hu : encode_U v % 2 ^ 32 / 2 ^ 12 % 2 ^ 20 * 2 ^ 12 = (v % 2 ^ 32).toNat := by
      unfold encode_U
      omega
    rw [hu]
    unfold toInt32
    split <;> omega
  · intro v h1 h2 h3
    rw [imm_J_arith]
    unfold encode_J
    set u := (v % 2 ^ 21).toNat with hudef
    have hu21 : u < 2 ^ 21 := by omega
    have hu2 : u % 2 = 0 := by omega
    generalize hA : u / 2 ^ 20 = a
    generalize hB : u / 2 % 2 ^ 10 = b
    generalize hC : u / 2 ^ 11 % 2 = c
    generalize hD : u / 2 ^ 12 % 2 ^ 8 = d
    have ha : a ≤ 1 := by omega
    have hb : b < 2 ^ 10 := by omega
    have hc : c ≤ 1 := by omega
    have hd : d < 2 ^ 8 := by omega
    obtain ⟨hw, e1, e2, e3, e4⟩ := jfield_divs a b c d ha hb hc hd
    rw [hw, e1, e2, e3, e4]
    clear hw e1 e2 e3 e4
    have harg : a * 2 ^ 20 + (d * 2 ^ 12 + (c * 2 ^ 11 + b * 2)) = u := by omega
    rw [harg, sign_extend_arith u 21 (by norm_num) (by norm_num) (by omega)]
    split <;> omega

/-- Witness for the round-trip theorem at concrete immediates of each
format. -/
theorem imm_roundtrip_witness :
    Simulate.imm_I (encode_I (-4)) = -4
    ∧ Simulate.imm_S (encode_S 2047) = 2047
    ∧ Simulate.imm_B (encode_B (-4096)) = -4096
    ∧ Simulate.imm_U (encode_U (-2147483648)) = -2147483648
    ∧ Simulate.imm_J (encode_J 1048574) = 1048574 :=
  ⟨imm_roundtrip.1 (-4) (by decide) (by decide),
   imm_roundtrip.2.1 2047 (by decide) (by decide),
   imm_roundtrip.2.2.1 (-4096) (by decide) (by decide) (by decide),
   imm_roundtrip.2.2.2.1 (-2147483648) (by decide) (by decide) (by decide),
   imm_roundtrip.2.2.2.2 1048574 (by decide) (by decide) (by decide)⟩

/-- A concrete all-zero `Stat`, standing for one possible content of the
uninitialized stack bytes of the C local `struct Stat stats`. -/
def zeroStat : Stat :=
  { insns := 0, nt_predictions := 0, nt_mispredictions := 0,
    btfnt_predictions := 0, btfnt_mispredictions := 0,
    bimodal_predictions := fun _ => 0, bimodal_mispredictions := fun _ => 0,
    gshare_predictions := fun _ => 0, gshare_mispredictions := fun _ => 0 }

/-- A second possible content of the uninitialized stack bytes, differing
from `zeroStat` in the `bimodal_predictions` array. -/
def gstat7 : Stat := { zeroStat with bimodal_predictions := fun _ => 7 }

/-- The all-zero memory image. -/
def mem0 : Mem := fun _ => 0

/-- A memory whose word at address 0 is `beq x0, x0, 8`
(encoding `0x00000463`). -/
def s0branch : SimState := Simulate.initState (memory_wr_w mem0 0 0x463) 0 zeroStat []

/-- Every single loop iteration re-asserts `R[0] = 0`. -/
lemma step_R0 (s : SimState) : (Simulate.step s).R 0 = 0 := rfl

/-- Any run from a state with `R[0] = 0` keeps `R[0] = 0`. -/
lemma run_R0 : ∀ (n : Nat) (s : SimState), s.R 0 = 0 → (Simulate.run n s).R 0 = 0 := by
  intro n
  induction n with
  | zero => intro s h; exact h
  | succ n ih =>
    intro s h
    unfold Simulate.run
    split
    · exact h
    · exact ih (Simulate.step s) (step_R0 s)

/-- C3: for every executed instruction, including instructions whose
destination register field names register 0, register 0 reads as zero after
the instruction completes; this holds as an invariant of every step of the
executor loop (and of every fuel-bounded run from the initial state, whose
registers are zeroed). -/
theorem register_zero_invariant :
    (∀ s : SimState, (Simulate.step s).R 0 = 0)
    ∧ ∀ (mem : Mem) (start_addr : Nat) (g : Stat) (input : List Nat) (n : Nat),
        (Simulate.run n (Simulate.initState mem start_addr g input)).R 0 = 0 :=
  ⟨step_R0, fun mem start_addr g input n => run_R0 n _ rfl⟩

/-- C1 evaluated at a failing input: executing the conditional branch
`beq x0, x0, 8` (taken) bumps the NT and BTFNT prediction counters, but the
`bimodal_predictions` and `gshare_predictions` buckets are all left exactly
as the uninitialized garbage they started as — no bucket increases, so the
four predictors do not all tally the branch as the claim requires. -/
theorem bimodal_gshare_not_updated_on_branch :
    (Simulate.step s0branch).stats.nt_predictions = s0branch.stats.nt_predictions + 1
    ∧ (Simulate.step s0branch).stats.btfnt_predictions = s0branch.stats.btfnt_predictions + 1
    ∧ (Simulate.step s0branch).stats.insns = 1
    ∧ (∀ i, (Simulate.step s0branch).stats.bimodal_predictions i
        = s0branch.stats.bimodal_predictions i)
    ∧ (∀ i, (Simulate.step s0branch).stats.bimodal_mispredictions i
        = s0branch.stats.bimodal_mispredictions i)
    ∧ (∀ i, (Simulate.step s0branch).stats.gshare_predictions i
        = s0branch.stats.gshare_predictions i)
    ∧ (∀ i, (Simulate.step s0branch).stats.gshare_mispredictions i
        = s0branch.stats.gshare_mispredictions i)
    ∧ ((Simulate.step s0branch).stats.bimodal_predictions 0
        + (Simulate.step s0branch).stats.bimodal_predictions 1
        + (Simulate.step s0branch).stats.bimodal_predictions 2
        + (Simulate.step s0branch).stats.bimodal_predictions 3 = 0)
    ∧ ((Simulate.step s0branch).stats.gshare_predictions 0
        + (Simulate.step s0branch).stats.gshare_predictions 1
        + (Simulate.step s0branch).stats.gshare_predictions 2
        + (Simulate.step s0branch).stats.gshare_predictions 3 = 0) := by
  refine ⟨by decide, by decide, by decide, by decide, by decide, by decide, by decide,
    by decide, by decide⟩

/-- C5 evaluated at a failing input: a run that halts fatally on the
unknown opcode `0x00000000` does return a `Stat` whose `insns` and
NT/BTFNT counters hold the accumulated statistics, but whose
`bimodal_predictions` array still holds whatever garbage the uninitialized
local `struct Stat` started with — two different garbage contents yield two
different returned `Stat`s, so the returned value is not fully defined. -/
theorem stat_uninitialized_on_fatal_halt :
    (Simulate.simulate 5 mem0 0 zeroStat []).insns = 1
    ∧ (Simulate.simulate 5 mem0 0 zeroStat []).nt_predictions = 0
    ∧ (Simulate.simulate 5 mem0 0 zeroStat []).nt_mispredictions = 0
    ∧ (Simulate.simulate 5 mem0 0 zeroStat []).btfnt_predictions = 0
    ∧ (Simulate.simulate 5 mem0 0 zeroStat []).btfnt_mispredictions = 0
    ∧ (Simulate.simulate 5 mem0 0 zeroStat []).bimodal_predictions 0 = 0
    ∧ (Simulate.simulate 5 mem0 0 gstat7 []).insns = 1
    ∧ (Simulate.simulate 5 mem0 0 gstat7 []).bimodal_predictions 0 = 7 := by
  refine ⟨by decide, by decide, by decide, by decide, by decide, by decide, by decide,
    by decide⟩

/-- `(int32_t)` casts preserve parity. -/
lemma toInt32_even (n : Nat) (h : n % 2 = 0) : toInt32 n % 2 = 0 := by
  unfold toInt32
  split <;> omega

/-- `(uint32_t)` casts preserve parity. -/
lemma u32ofInt_even (x : Int) (h : x % 2 = 0) : u32ofInt x % 2 = 0 := by
  unfold u32ofInt
  omega

/-- The B-type immediate always has bit 0 zero. -/
lemma imm_B_even (w : Nat) : Simulate.imm_B w % 2 = 0 := by
  rw [imm_B_arith]
  generalize w % 2 ^ 32 = q
  have hlt : q / 2 ^ 31 % 2 * 2 ^ 12 + (q / 2 ^ 7 % 2 * 2 ^ 11
      + (q / 2 ^ 25 % 2 ^ 6 * 2 ^ 5 + q / 2 ^ 8 % 2 ^ 4 * 2)) < 2 ^ 13 := by omega
  have heven : (q / 2 ^ 31 % 2 * 2 ^ 12 + (q / 2 ^ 7 % 2 * 2 ^ 11
      + (q / 2 ^ 25 % 2 ^ 6 * 2 ^ 5 + q / 2 ^ 8 % 2 ^ 4 * 2))) % 2 = 0 := by omega
  rw [sign_extend_arith _ 13 (by norm_num) (by norm_num) hlt]
  split <;> omega

/-- The J-type immediate always has bit 0 zero. -/
lemma imm_J_even (w : Nat) : Simulate.imm_J w % 2 = 0 := by
  rw [imm_J_arith]
  generalize w % 2 ^ 32 = q
  have hlt : q / 2 ^ 31 % 2 * 2 ^ 20 + (q / 2 ^ 12 % 2 ^ 8 * 2 ^ 12
      + (q / 2 ^ 20 % 2 * 2 ^ 11 + q / 2 ^ 21 % 2 ^ 10 * 2)) < 2 ^ 21 := by omega
  have heven : (q / 2 ^ 31 % 2 * 2 ^ 20 + (q / 2 ^ 12 % 2 ^ 8 * 2 ^ 12
      + (q / 2 ^ 20 % 2 * 2 ^ 11 + q / 2 ^ 21 % 2 ^ 10 * 2))) % 2 = 0 := by omega
  rw [sign_extend_arith _ 21 (by norm_num) (by norm_num) hlt]
  split <;> omega

/-- The jalr target mask `& ~1u` clears bit 0. -/
lemma and_fffffffe_even (x : Nat) : (x &&& 0xfffffffe) % 2 = 0 := by
  rcases Nat.mod_two_eq_zero_or_one (x &&& 0xfffffffe) with h | h
  · exact h
  · have h2 := Nat.and_mod_two_eq_one.mp h
    omega

/-- The `next_pc` produced by one dispatch is always even when the current
program counter is even. -/
lemma execute_next_pc_even (s : SimState) (instr : Nat) (h : s.PC % 2 = 0) :
    (Simulate.execute s instr).2 % 2 = 0 := by
  have hB := imm_B_even instr
  have hJ := imm_J_even instr
  have hPC := toInt32_even s.PC h
  unfold Simulate.execute
  dsimp only
  by_cases h33 : Simulate.opcode instr = 51
  · rw [if_pos h33]
    cases hr : Simulate.rtype_result (Simulate.funct3 instr) (Simulate.funct7 instr)
        (s.R (Simulate.rs1 instr)) (s.R (Simulate.rs2 instr)) <;> dsimp only <;> omega
  rw [if_neg h33]
  by_cases h13 : Simulate.opcode instr = 19
  · rw [if_pos h13]; dsimp only; omega
  rw [if_neg h13]
  by_cases h03 : Simulate.opcode instr = 3
  · rw [if_pos h03]
    cases hr : Simulate.load_result (Simulate.funct3 instr) s.mem
        (u32ofInt (toInt32 (s.R (Simulate.rs1 instr)) + Simulate.imm_I instr)) <;>
      dsimp only <;> omega
  rw [if_neg h03]
  by_cases h23 : Simulate.opcode instr = 35
  · rw [if_pos h23]
    cases hr : Simulate.store_mem (Simulate.funct3 instr) s.mem
        (u32ofInt (toInt32 (s.R (Simulate.rs1 instr)) + Simulate.imm_S instr))
        (s.R (Simulate.rs2 instr)) <;> dsimp only <;> omega
  rw [if_neg h23]
  by_cases h63 : Simulate.opcode instr = 99
  · rw [if_pos h63]
    dsimp only
    split
    · exact u32ofInt_even _ (by omega)
    · omega
  rw [if_neg h63]
  by_cases h6f : Simulate.opcode instr = 111
  · rw [if_pos h6f]
    dsimp only
    exact u32ofInt_even _ (by omega)
  rw [if_neg h6f]
  by_cases h67 : Simulate.opcode instr = 103
  · rw [if_pos h67]
    dsimp only
    exact and_fffffffe_even _
  rw [if_neg h67]
  by_cases h37 : Simulate.opcode instr = 55
  · rw [if_pos h37]; dsimp only; omega
  rw [if_neg h37]
  by_cases h17 : Simulate.opcode instr = 23
  · rw [if_pos h17]; dsimp only; omega
  rw [if_neg h17]
  by_cases h73 : Simulate.opcode instr = 115
  · rw [if_pos h73]
    repeat' (first | omega | split | dsimp only)
  rw [if_neg h73]
  dsimp only
  omega

/-- One loop iteration preserves evenness of the program counter. -/
lemma step_PC_even (s : SimState) (h : s.PC % 2 = 0) : (Simulate.step s).PC % 2 = 0 := by
  dsimp only [Simulate.step]
  exact execute_next_pc_even s _ h

/-- A memory whose word at address 0 is `jalr x1, 2(x0)`
(encoding `0x002000E7`), started at address 0. -/
def s0jalr : SimState := Simulate.initState (memory_wr_w mem0 0 0x2000E7) 0 zeroStat []

/-- C4 counterexample: from start address 0 (a multiple of 4), executing
`jalr x1, 2(x0)` — which only forces bit 0 of its target to zero — leaves
the loop running with the program counter at 2, which is not a multiple of
4, just before the next fetch. -/
theorem pc_multiple_of_four_fails :
    s0jalr.PC = 0
    ∧ (Simulate.step s0jalr).stop = false
    ∧ (Simulate.step s0jalr).PC = 2 := by
  refine ⟨by decide, by decide, by decide⟩

/-- C4 amended: for every run started at a start address that is a multiple
of 4, the program counter is even (a multiple of 2) before every fetch:
jalr forces bit 0 of its target to zero, branch and jump offsets always
have bit 0 zero, and every other instruction advances by 4 — but bit 1 of
jalr/branch/jal targets is unconstrained, so only evenness (not
multiple-of-4 alignment) is invariant. -/
theorem pc_even_invariant (mem : Mem) (start_addr : Nat) (g : Stat) (input : List Nat)
    (h : start_addr % 4 = 0) :
    ∀ n : Nat, (Simulate.run n (Simulate.initState mem start_addr g input)).PC % 2 = 0 := by
  have key : ∀ (n : Nat) (s : SimState), s.PC % 2 = 0 → (Simulate.run n s).PC % 2 = 0 := by
    intro n
    induction n with
    | zero => intro s hs; exact hs
    | succ n ih =>
      intro s hs
      unfold Simulate.run
      split
      · exact hs
      · exact ih _ (step_PC_even s hs)
  intro n
  refine key n _ ?_
  dsimp only [Simulate.initState]
  omega

/-- Witness for the amended invariant on the jalr program. -/
theorem pc_even_invariant_witness : (Simulate.run 2 s0jalr).PC % 2 = 0 := by
  have h := pc_even_invariant (memory_wr_w mem0 0 0x2000E7) 0 zeroStat [] (by decide)
  exact h 2

/-- C9: for every executed conditional branch, the Not-Taken predictor's
misprediction counter increments iff the branch is actually taken, and the
Backward-Taken-Forward-Not-Taken predictor predicts taken iff the branch
target address is (unsigned) less than the branch's own address, its
misprediction counter incrementing iff that prediction differs from the
actual outcome (whose truth also decides whether the next program counter
is the target or the fall-through address). -/
theorem branch_predictor_bookkeeping (s : SimState)
    (hop : Simulate.opcode (memory_rd_w s.mem s.PC) = 0x63) :
    (Simulate.step s).stats.nt_predictions = s.stats.nt_predictions + 1
    ∧ (Simulate.step s).stats.btfnt_predictions = s.stats.btfnt_predictions + 1
    ∧ (Simulate.step s).stats.nt_mispredictions = s.stats.nt_mispredictions
        + (if Simulate.branch_take (Simulate.funct3 (memory_rd_w s.mem s.PC))
              (s.R (Simulate.rs1 (memory_rd_w s.mem s.PC)))
              (s.R (Simulate.rs2 (memory_rd_w s.mem s.PC))) then 1 else 0)
    ∧ (Simulate.step s).stats.btfnt_mispredictions = s.stats.btfnt_mispredictions
        + (if (decide (u32ofInt (toInt32 s.PC + Simulate.imm_B (memory_rd_w s.mem s.PC)) < s.PC)
              ≠ Simulate.branch_take (Simulate.funct3 (memory_rd_w s.mem s.PC))
                  (s.R (Simulate.rs1 (memory_rd_w s.mem s.PC)))
                  (s.R (Simulate.rs2 (memory_rd_w s.mem s.PC)))) then 1 else 0)
    ∧ (Simulate.step s).PC
        = (if Simulate.branch_take (Simulate.funct3 (memory_rd_w s.mem s.PC))
              (s.R (Simulate.rs1 (memory_rd_w s.mem s.PC)))
              (s.R (Simulate.rs2 (memory_rd_w s.mem s.PC)))
           then u32ofInt (toInt32 s.PC + Simulate.imm_B (memory_rd_w s.mem s.PC))
           else (s.PC + 4) % 2 ^ 32) := by
  unfold Simulate.step Simulate.execute
  dsimp only
  rw [hop]
  norm_num
  cases htake : Simulate.branch_take (Simulate.funct3 (memory_rd_w s.mem s.PC))
      (s.R (Simulate.rs1 (memory_rd_w s.mem s.PC)))
      (s.R (Simulate.rs2 (memory_rd_w s.mem s.PC))) <;>
    simp [htake] <;> split <;> omega

/-- Witness for the branch bookkeeping theorem: `beq x0, x0, 8` is taken,
mispredicting NT (taken ≠ not-taken) and BTFNT (a forward taken branch). -/
theorem branch_predictor_bookkeeping_witness :
    (Simulate.step s0branch).stats.nt_mispredictions = 1
    ∧ (Simulate.step s0branch).stats.btfnt_mispredictions = 1 := by
  have h := branch_predictor_bookkeeping s0branch (by decide)
  refine ⟨?_, ?_⟩
  · rw [h.2.2.1]; decide
  · rw [h.2.2.2.1]; decide

/-- C6: when the fetched instruction is exactly the bare trap encoding
`0x00000073`, the executor dispatches on the service-select register `a7`
(`R[17]`): service 1 writes `(uint32_t)-1` to `a0` (`R[10]`) on
end-of-input and otherwise the input byte's unsigned value; service 2
appends the low 8 bits of `a0` to the output; services 3 and 93 halt the
loop; any other service value halts the loop (after reporting). -/
theorem ecall_dispatch (s : SimState) (hfetch : memory_rd_w s.mem s.PC = 0x00000073) :
    (s.R 17 = 1 → s.input = [] →
        (Simulate.step s).R 10 = 2 ^ 32 - 1 ∧ (Simulate.step s).stop = s.stop
          ∧ (Simulate.step s).PC = (s.PC + 4) % 2 ^ 32)
    ∧ (∀ c rest, s.R 17 = 1 → s.input = c :: rest →
        (Simulate.step s).R 10 = c % 2 ^ 8 ∧ (Simulate.step s).input = rest
          ∧ (Simulate.step s).stop = s.stop ∧ (Simulate.step s).PC = (s.PC + 4) % 2 ^ 32)
    ∧ (s.R 17 = 2 →
        (Simulate.step s).output = s.output ++ [s.R 10 &&& 0xff]
          ∧ (Simulate.step s).stop = s.stop ∧ (Simulate.step s).PC = (s.PC + 4) % 2 ^ 32)
    ∧ (s.R 17 = 3 → (Simulate.step s).stop = true)
    ∧ (s.R 17 = 93 → (Simulate.step s).stop = true)
    ∧ (s.R 17 ≠ 1 → s.R 17 ≠ 2 → s.R 17 ≠ 3 → s.R 17 ≠ 93 → (Simulate.step s).stop = true) := by
  unfold Simulate.step Simulate.execute
  dsimp only
  rw [hfetch]
  have hop115 : Simulate.opcode 115 = 115 := by decide
  norm_num [hop115]
  refine ⟨?_, ?_, ?_, ?_, ?_, ?_⟩
  · intro h17 hinp
    simp [h17, hinp, writeReg]
    decide
  · intro c rest h17 hinp
    simp [h17, hinp, writeReg]
    omega
  · intro h17
    simp [h17]
  · intro h17
    simp [h17]
  · intro h17
    simp [h17]
  · intro h1 h2 h3 h93
    simp [h1, h2, h3, h93]

/-- A state about to execute the bare trap with `a7 = 1` (read character)
and one byte of pending input. -/
def s0ecall : SimState :=
  { R := fun i => if i = 17 then 1 else 0, PC := 0, mem := memory_wr_w mem0 0 0x73,
    stats := zeroStat, input := [65], output := [], instr_count := 0, stop := false }

/-- Witness for the trap dispatch: service 1 reads the pending byte 65 into
`a0` and consumes it from the input. -/
theorem ecall_dispatch_witness :
    (Simulate.step s0ecall).R 10 = 65 ∧ (Simulate.step s0ecall).input = [] := by
  have h := ecall_dispatch s0ecall (by decide)
  have h2 := h.2.1 65 [] (by decide) rfl
  refine ⟨?_, ?_⟩
  · rw [h2.1]
    decide
  · exact h2.2.1

/-- Modelled from the spec: the R-format encoder placing funct7, rs2, rs1,
funct3, rd and the R-type opcode at their fixed bit positions (§4.1); test
scaffolding for addressing the divide/remainder instructions. -/
def encodeR (f7 r2 r1 f3 rdi : Nat) : Nat :=
  f7 * 2 ^ 25 + r2 * 2 ^ 20 + r1 * 2 ^ 15 + f3 * 2 ^ 12 + rdi * 2 ^ 7 + 0x33

/-- `(int32_t)b = 0` exactly when the unsigned value is zero. -/
lemma toInt32_zero_iff (b : Nat) (hb : b < 2 ^ 32) : toInt32 b = 0 ↔ b = 0 := by
  unfold toInt32
  split <;> omega

/-- `(int32_t)a = INT32_MIN` exactly when the unsigned value is `2 ^ 31`. -/
lemma toInt32_min_iff (a : Nat) (ha : a < 2 ^ 32) : toInt32 a = -(2 ^ 31) ↔ a = 2 ^ 31 := by
  unfold toInt32
  split <;> omega

/-- `(int32_t)b = -1` exactly when the unsigned value is all-ones. -/
lemma toInt32_negone_iff (b : Nat) (hb : b < 2 ^ 32) : toInt32 b = -1 ↔ b = 2 ^ 32 - 1 := by
  unfold toInt32
  split <;> omega

/-- `(uint32_t)` casts land below `2 ^ 32`. -/
lemma u32ofInt_lt (x : Int) : u32ofInt x < 2 ^ 32 := by
  unfold u32ofInt
  omega

/-- C2: for all 32-bit operands, the executed div/divu/rem/remu
instructions produce exactly: signed divide by zero = -1 (all-ones as
`uint32_t`); unsigned divide by zero = the maximum unsigned 32-bit value;
signed/unsigned remainder by zero = the dividend unchanged; signed divide
of `INT32_MIN` by -1 = `INT32_MIN`; signed remainder of that pair = 0; and
in all other cases the truncated (toward-zero) quotient/remainder, never a
trap. -/
theorem div_rem_edge_cases (s : SimState) (a b : Nat) (ha : a < 2 ^ 32) (hb : b < 2 ^ 32)
    (h11 : s.R 11 = a) (h12 : s.R 12 = b) :
    (memory_rd_w s.mem s.PC = encodeR 1 12 11 4 10 →
      (b = 0 → (Simulate.step s).R 10 = 2 ^ 32 - 1)
      ∧ (a = 2 ^ 31 ∧ b = 2 ^ 32 - 1 → (Simulate.step s).R 10 = 2 ^ 31)
      ∧ (b ≠ 0 → ¬(a = 2 ^ 31 ∧ b = 2 ^ 32 - 1) →
          (Simulate.step s).R 10 = u32ofInt (Int.tdiv (toInt32 a) (toInt32 b))))
    ∧ (memory_rd_w s.mem s.PC = encodeR 1 12 11 5 10 →
      (b = 0 → (Simulate.step s).R 10 = 2 ^ 32 - 1)
      ∧ (b ≠ 0 → (Simulate.step s).R 10 = a / b))
    ∧ (memory_rd_w s.mem s.PC = encodeR 1 12 11 6 10 →
      (b = 0 → (Simulate.step s).R 10 = a)
      ∧ (a = 2 ^ 31 ∧ b = 2 ^ 32 - 1 → (Simulate.step s).R 10 = 0)
      ∧ (b ≠ 0 → ¬(a = 2 ^ 31 ∧ b = 2 ^ 32 - 1) →
          (Simulate.step s).R 10 = u32ofInt (Int.tmod (toInt32 a) (toInt32 b))))
    ∧ (memory_rd_w s.mem s.PC = encodeR 1 12 11 7 10 →
      (b = 0 → (Simulate.step s).R 10 = a)
      ∧ (b ≠ 0 → (Simulate.step s).R 10 = a % b)) := by
  refine ⟨?_, ?_, ?_, ?_⟩
  · intro hfetch
    unfold Simulate.step Simulate.execute
    dsimp only
    rw [hfetch]
    have e1 : Simulate.opcode (encodeR 1 12 11 4 10) = 51 := by decide
    have e2 : Simulate.funct3 (encodeR 1 12 11 4 10) = 4 := by decide
    have e3 : Simulate.funct7 (encodeR 1 12 11 4 10) = 1 := by decide
    have e4 : Simulate.rs1 (encodeR 1 12 11 4 10) = 11 := by decide
    have e5 : Simulate.rs2 (encodeR 1 12 11 4 10) = 12 := by decide
    have e6 : Simulate.rd (encodeR 1 12 11 4 10) = 10 := by decide
    norm_num [e1, e2, e3, e4, e5, e6, Simulate.rtype_result, writeReg, h11, h12]
    refine ⟨?_, ?_, ?_⟩
    · intro hb0
      rw [hb0]
      have h0 : toInt32 0 = 0 := by decide
      rw [h0]
      unfold Simulate.div_s
      rw [if_pos rfl]
      decide
    · intro ha' hb'
      rw [ha', hb']
      decide
    · intro hb0 hov
      have hd : Simulate.div_s (toInt32 a) (toInt32 b) = Int.tdiv (toInt32 a) (toInt32 b) := by
        unfold Simulate.div_s
        rw [if_neg (fun h => hb0 ((toInt32_zero_iff b hb).mp h)),
          if_neg (fun h => hov ((toInt32_min_iff a ha).mp h.1) ((toInt32_negone_iff b hb).mp h.2))]
      rw [hd]
      have := u32ofInt_lt (Int.tdiv (toInt32 a) (toInt32 b))
      omega
  · intro hfetch
    unfold Simulate.step Simulate.execute
    dsimp only
    rw [hfetch]
    have e1 : Simulate.opcode (encodeR 1 12 11 5 10) = 51 := by decide
    have e2 : Simulate.funct3 (encodeR 1 12 11 5 10) = 5 := by decide
    have e3 : Simulate.funct7 (encodeR 1 12 11 5 10) = 1 := by decide
    have e4 : Simulate.rs1 (encodeR 1 12 11 5 10) = 11 := by decide
    have e5 : Simulate.rs2 (encodeR 1 12 11 5 10) = 12 := by decide
    have e6 : Simulate.rd (encodeR 1 12 11 5 10) = 10 := by decide
    norm_num [e1, e2, e3, e4, e5, e6, Simulate.rtype_result, writeReg, h11, h12]
    refine ⟨?_, ?_⟩
    · intro hb0
      rw [hb0]
      unfold Simulate.div_u
      norm_num
    · intro hb0
      unfold Simulate.div_u
      rw [if_neg hb0]
      exact Nat.mod_eq_of_lt (lt_of_le_of_lt (Nat.div_le_self a b) ha)
  · intro hfetch
    unfold Simulate.step Simulate.execute
    dsimp only
    rw [hfetch]
    have e1 : Simulate.opcode (encodeR 1 12 11 6 10) = 51 := by decide
    have e2 : Simulate.funct3 (encodeR 1 12 11 6 10) = 6 := by decide
    have e3 : Simulate.funct7 (encodeR 1 12 11 6 10) = 1 := by decide
    have e4 : Simulate.rs1 (encodeR 1 12 11 6 10) = 11 := by decide
    have e5 : Simulate.rs2 (encodeR 1 12 11 6 10) = 12 := by decide
    have e6 : Simulate.rd (encodeR 1 12 11 6 10) = 10 := by decide
    norm_num [e1, e2, e3, e4, e5, e6, Simulate.rtype_result, writeReg, h11, h12]
    refine ⟨?_, ?_, ?_⟩
    · intro hb0
      rw [hb0]
      have h0 : toInt32 0 = 0 := by decide
      rw [h0]
      unfold Simulate.rem_s
      rw [if_pos rfl]
      unfold u32ofInt toInt32
      split <;> omega
    · intro ha' hb'
      rw [ha', hb']
      decide
    · intro hb0 hov
      have hd : Simulate.rem_s (toInt32 a) (toInt32 b) = Int.tmod (toInt32 a) (toInt32 b) := by
        unfold Simulate.rem_s
        rw [if_neg (fun h => hb0 ((toInt32_zero_iff b hb).mp h)),
          if_neg (fun h => hov ((toInt32_min_iff a ha).mp h.1) ((toInt32_negone_iff b hb).mp h.2))]
      rw [hd]
      have := u32ofInt_lt (Int.tmod (toInt32 a) (toInt32 b))
      omega
  · intro hfetch
    unfold Simulate.step Simulate.execute
    dsimp only
    rw [hfetch]
    have e1 : Simulate.opcode (encodeR 1 12 11 7 10) = 51 := by decide
    have e2 : Simulate.funct3 (encodeR 1 12 11 7 10) = 7 := by decide
    have e3 : Simulate.funct7 (encodeR 1 12 11 7 10) = 1 := by decide
    have e4 : Simulate.rs1 (encodeR 1 12 11 7 10) = 11 := by decide
    have e5 : Simulate.rs2 (encodeR 1 12 11 7 10) = 12 := by decide
    have e6 : Simulate.rd (encodeR 1 12 11 7 10) = 10 := by decide
    norm_num [e1, e2, e3, e4, e5, e6, Simulate.rtype_result, writeReg, h11, h12]
    refine ⟨?_, ?_⟩
    · intro hb0
      rw [hb0]
      unfold Simulate.rem_u
      norm_num
      omega
    · intro hb0
      unfold Simulate.rem_u
      rw [if_neg hb0]
      exact Nat.mod_eq_of_lt (lt_of_le_of_lt (Nat.mod_le a b) ha)

/-- A state about to execute `div a0, a1, a2` with `a1 = 7` and `a2 = 0`. -/
def s0div : SimState :=
  { R := fun i => if i = 11 then 7 else 0, PC := 0,
    mem := memory_wr_w mem0 0 (encodeR 1 12 11 4 10),
    stats := zeroStat, input := [], output := [], instr_count := 0, stop := false }

/-- Witness: signed division of 7 by zero writes all-ones to the
destination register. -/
theorem div_rem_edge_cases_witness : (Simulate.step s0div).R 10 = 2 ^ 32 - 1 := by
  have h := div_rem_edge_cases s0div 7 0 (by decide) (by decide) (by decide) (by decide)
  exact (h.1 (by decide)).1 rfl

/-- C10: an instruction whose opcode class is recognized but whose funct3
value is not one of the listed encodings (a load with funct3 3, 6 or 7, a
store with funct3 >= 3, a branch with funct3 2 or 3) executes as a silent
no-op: no register other than the program counter changes, no memory write
occurs, the loop does not halt, and execution continues at PC + 4 — unlike
an unrecognized opcode, which sets the stop flag (fatal). -/
theorem unknown_funct3_silent_noop (s : SimState) :
    ((Simulate.opcode (memory_rd_w s.mem s.PC) = 0x03
        ∧ (Simulate.funct3 (memory_rd_w s.mem s.PC) = 3
           ∨ Simulate.funct3 (memory_rd_w s.mem s.PC) = 6
           ∨ Simulate.funct3 (memory_rd_w s.mem s.PC) = 7))
      ∨ (Simulate.opcode (memory_rd_w s.mem s.PC) = 0x23
        ∧ 3 ≤ Simulate.funct3 (memory_rd_w s.mem s.PC))
      ∨ (Simulate.opcode (memory_rd_w s.mem s.PC) = 0x63
        ∧ (Simulate.funct3 (memory_rd_w s.mem s.PC) = 2
           ∨ Simulate.funct3 (memory_rd_w s.mem s.PC) = 3)) →
      (∀ i, (Simulate.step s).R i = if i = 0 then 0 else s.R i)
      ∧ (Simulate.step s).mem = s.mem
      ∧ (Simulate.step s).stop = s.stop
      ∧ (Simulate.step s).PC = (s.PC + 4) % 2 ^ 32)
    ∧ (Simulate.opcode (memory_rd_w s.mem s.PC) ≠ 0x33 →
       Simulate.opcode (memory_rd_w s.mem s.PC) ≠ 0x13 →
       Simulate.opcode (memory_rd_w s.mem s.PC) ≠ 0x03 →
       Simulate.opcode (memory_rd_w s.mem s.PC) ≠ 0x23 →
       Simulate.opcode (memory_rd_w s.mem s.PC) ≠ 0x63 →
       Simulate.opcode (memory_rd_w s.mem s.PC) ≠ 0x6f →
       Simulate.opcode (memory_rd_w s.mem s.PC) ≠ 0x67 →
       Simulate.opcode (memory_rd_w s.mem s.PC) ≠ 0x37 →
       Simulate.opcode (memory_rd_w s.mem s.PC) ≠ 0x17 →
       Simulate.opcode (memory_rd_w s.mem s.PC) ≠ 0x73 →
        (Simulate.step s).stop = true ∧ (Simulate.step s).PC = (s.PC + 4) % 2 ^ 32) := by
  constructor
  · intro h
    have hf8 : Simulate.funct3 (memory_rd_w s.mem s.PC) < 8 := by
      simp only [Simulate.funct3, and_mask7]
      omega
    rcases h with ⟨hop, hf3 | hf3 | hf3⟩ | ⟨hop, hf3⟩ | ⟨hop, hf3 | hf3⟩
    · unfold Simulate.step Simulate.execute
      dsimp only
      norm_num [hop, hf3, Simulate.load_result]
    · unfold Simulate.step Simulate.execute
      dsimp only
      norm_num [hop, hf3, Simulate.load_result]
    · unfold Simulate.step Simulate.execute
      dsimp only
      norm_num [hop, hf3, Simulate.load_result]
    · have h5 : Simulate.funct3 (memory_rd_w s.mem s.PC) = 3
          ∨ Simulate.funct3 (memory_rd_w s.mem s.PC) = 4
          ∨ Simulate.funct3 (memory_rd_w s.mem s.PC) = 5
          ∨ Simulate.funct3 (memory_rd_w s.mem s.PC) = 6
          ∨ Simulate.funct3 (memory_rd_w s.mem s.PC) = 7 := by omega
      rcases h5 with hf | hf | hf | hf | hf <;>
        (unfold Simulate.step Simulate.execute
         dsimp only
         norm_num [hop, hf, Simulate.store_mem])
    · unfold Simulate.step Simulate.execute
      dsimp only
      norm_num [hop, hf3, Simulate.branch_take]
    · unfold Simulate.step Simulate.execute
      dsimp only
      norm_num [hop, hf3, Simulate.branch_take]
  · intro h1 h2 h3 h4 h5 h6 h7 h8 h9 h10
    unfold Simulate.step Simulate.execute
    dsimp only
    rw [if_neg h1, if_neg h2, if_neg h3, if_neg h4, if_neg h5, if_neg h6, if_neg h7,
      if_neg h8, if_neg h9, if_neg h10]
    exact ⟨rfl, rfl⟩

/-- A state about to execute the load encoding `0x00003003` whose funct3
value 3 is not a listed load variant. -/
def s0noop : SimState := Simulate.initState (memory_wr_w mem0 0 0x3003) 0 zeroStat []

/-- Witness: the unlisted load funct3 3 is a silent no-op, while the
all-zero instruction word (unrecognized opcode 0) halts the loop. -/
theorem unknown_funct3_silent_noop_witness :
    (Simulate.step s0noop).PC = 4 ∧ (Simulate.step s0noop).stop = false
    ∧ (Simulate.step (Simulate.initState mem0 0 zeroStat [])).stop = true := by
  have h := unknown_funct3_silent_noop s0noop
  have h2 := unknown_funct3_silent_noop (Simulate.initState mem0 0 zeroStat [])
  refine ⟨?_, ?_, ?_⟩
  · have hc := (h.1 (Or.inl ⟨by decide, Or.inl (by decide)⟩)).2.2.2
    rw [hc]
    decide
  · have hc := (h.1 (Or.inl ⟨by decide, Or.inl (by decide)⟩)).2.2.1
    rw [hc]
    decide
  · exact (h2.2 (by decide) (by decide) (by decide) (by decide) (by decide) (by decide)
      (by decide) (by decide) (by decide) (by decide)).1
